import Mathlib

/-!
Shallow embedding of the hotspot lifecycle manager (`hotspot.py`) of the
pibridge repository.  External commands are modelled by an environment
record that supplies, per call site, the outcome the operating system
returned (a completed `RunResult`, or a raised exception carried as a
message string).  Side effects are recorded in an explicit trace of
`Effect`s so that claims about which commands a code path issues can be
stated and proved.
-/

namespace PiBridge

/-- Result of a completed `subprocess.run` invocation: exit code and the
captured output streams. -/
structure RunResult where
  returncode : Int
  stdout : String
  stderr : String
deriving Repr, DecidableEq

/-- Outcome of an external call that can raise: `Except.error m` models a
raised Python exception with message `m`; `Except.ok r` a completed run. -/
abbrev Outcome (α : Type) := Except String α

/-- The hotspot configuration dictionary `self.hotspot_config`.  Each field
is `none` when the corresponding key is absent from the dictionary (so that
`dict.get(key, default)` semantics — default only on a missing key — can be
modelled faithfully). -/
structure HotspotConfig where
  ssid : Option String
  password : Option String
  iface_key : Option String
  ip_address : Option String
  dhcp_start : Option String
  dhcp_end : Option String
  channel : Option Int
  country_code : Option String
deriving Repr, DecidableEq

/-- Predicate `startsWithChars s pat`: holds when `pat` is an initial segment of `s`. -/
def startsWithChars : List Char → List Char → Bool
  | _, [] => true
  | [], _ :: _ => false
  | a :: as, b :: bs => a == b && startsWithChars as bs

/-- Predicate `hasSubChars pat s`: holds when `pat` occurs contiguously inside `s`. -/
def hasSubChars (pat : List Char) : List Char → Bool
  | [] => startsWithChars [] pat
  | a :: rest => startsWithChars (a :: rest) pat || hasSubChars pat rest

/-- Python's substring containment `pat in s`.  The empty pattern is a
substring of everything. -/
def strContains (s pat : String) : Bool :=
  hasSubChars pat.data s.data

/-- Python's `s.split('\n')`: split at every newline, keeping empty pieces. -/
def splitCharsOn (sep : Char) : List Char → List (List Char)
  | [] => [[]]
  | c :: rest =>
    let r := splitCharsOn sep rest
    if c == sep then [] :: r
    else
      match r with
      | [] => [[c]]
      | h :: t => (c :: h) :: t

/-- Lifting of `s.split('\n')` to strings. -/
def splitLines (s : String) : List String :=
  (splitCharsOn (Char.ofNat 10) s.data).map (fun l => String.mk l)

/-- Accumulating helper for whitespace splitting: `cur` holds the pending
word in reverse order. -/
def wordsAux : List Char → List Char → List (List Char)
  | cur, [] => if cur.isEmpty then [] else [cur.reverse]
  | cur, c :: rest =>
    if c.isWhitespace then
      if cur.isEmpty then wordsAux [] rest
      else cur.reverse :: wordsAux [] rest
    else wordsAux (c :: cur) rest

/-- Python's argument-less `s.split()`: runs of whitespace separate words,
no empty words are produced. -/
def pySplitWs (s : String) : List String := (wordsAux [] s.data).map String.mk

/-- All characters are decimal digits. -/
def allDigits : List Char → Bool
  | [] => true
  | c :: rest => c.isDigit && allDigits rest

/-- Python's `s.isdigit()` restricted to ASCII digits: non-empty and all
digits. -/
def pyIsDigit (s : String) : Bool :=
  !s.data.isEmpty && allDigits s.data

/-- Decimal value of a digit string (Python's `int(s)` on a digit-only
string). -/
def digitsToNat : Nat → List Char → Nat
  | acc, [] => acc
  | acc, c :: rest => digitsToNat (acc * 10 + (c.toNat - 48)) rest

/-- Value of `int(s)` for a string that passed `pyIsDigit`. -/
def pyStrToNat (s : String) : Nat := digitsToNat 0 s.data

/-- Outcomes of the two probes issued by `is_hotspot_active`:
`pgrep -f hostapd` and `ip addr show <iface>` (the latter run with
`check=True`, so a non-zero exit code raises). -/
structure ActiveProbe where
  pgrepHostapd : Outcome RunResult
  ipAddrShow : Outcome RunResult
deriving Repr

/-- Embedding of `HotspotManager.is_hotspot_active` (hotspot.py lines 50–69): true when
`pgrep -f hostapd` exits 0 and the configured `ip_address` occurs in the
stdout of `ip addr show`; every raised probe exception (including the
`CalledProcessError` from `check=True` on a non-zero `ip addr show`, and
the `TypeError` from testing `None in stdout` when the `ip_address` key is
missing) is caught and yields `false`. -/
def is_hotspot_active (cfg : HotspotConfig) (p : ActiveProbe) : Bool :=
  match p.pgrepHostapd with
  | .error _ => false
  | .ok r1 =>
    if r1.returncode == 0 then
      match p.ipAddrShow with
      | .error _ => false
      | .ok r2 =>
        if r2.returncode == 0 then
          match cfg.ip_address with
          | none => false
          | some ip => strContains r2.stdout ip
        else false
    else false

/-- The pgrep probe found the AP daemon's process. -/
def probeFindsDaemon (p : ActiveProbe) : Prop :=
  ∃ r, p.pgrepHostapd = .ok r ∧ r.returncode = 0

/-- The interface probe completed and reports the configured IP address in
its output. -/
def probeShowsIp (cfg : HotspotConfig) (p : ActiveProbe) : Prop :=
  ∃ r ip, p.ipAddrShow = .ok r ∧ r.returncode = 0 ∧
    cfg.ip_address = some ip ∧ strContains r.stdout ip = true

/-! ## Commands, effects and fixed paths -/

/-- The manager's interface, set once in `__init__` and never changed. -/
def hotspotIface : String := "wlan0"

def hostapdConfPath : String := "/tmp/pibridge_hostapd.conf"
def dnsmasqConfPath : String := "/tmp/pibridge_dnsmasq.conf"
def hostapdLogPath : String := "/tmp/hostapd.log"

def pgrepHostapdCmd : List String := ["pgrep", "-f", "hostapd"]
def pgrepDnsmasqCmd : List String := ["pgrep", "-f", "dnsmasq"]
def pkillHostapdCmd : List String := ["pkill", "-f", "hostapd"]
def pkillDnsmasqCmd : List String := ["pkill", "-f", "dnsmasq"]
def sudoCheckCmd : List String := ["sudo", "-n", "true"]
def ipAddrShowCmd (iface : String) : List String := ["ip", "addr", "show", iface]
def ipLinkShowCmd (iface : String) : List String := ["ip", "link", "show", iface]
def ipFlushCmd (iface : String) : List String := ["ip", "addr", "flush", "dev", iface]
def ipAddrAddCmd (ip iface : String) : List String :=
  ["ip", "addr", "add", ip ++ "/24", "dev", iface]
def ipLinkSetUpCmd (iface : String) : List String := ["ip", "link", "set", iface, "up"]
def nmcliDisconnectCmd (iface : String) : List String := ["nmcli", "dev", "disconnect", iface]
def hostapdLaunchCmd : List String :=
  ["hostapd", "-B", "-f", hostapdLogPath, hostapdConfPath]
def dnsmasqLaunchCmd : List String := ["dnsmasq", "-C", dnsmasqConfPath]
def arpCmd : List String := ["arp", "-an"]
def sudoCatCmd (path : String) : List String := ["sudo", "cat", path]

/-- Command head `['sudo'] if sudo_available else []`. -/
def sudoPre (b : Bool) : List String := if b then ["sudo"] else []

/-- An observable side effect of the manager on the system. -/
inductive Effect where
  | run (cmd : List String)
  | write (path content : String)
  | removeFile (path : String)
  | terminate (pid : Nat)
  | kill (pid : Nat)
deriving Repr, DecidableEq

/-- Commands that only read system state (process table, interface state,
arp cache, lease files, the no-op sudo probe). -/
def readOnlyRun (c : List String) : Bool :=
  c.head? == some "pgrep" || c.head? == some "arp" ||
  c == sudoCheckCmd ||
  c.take 3 == ["ip", "addr", "show"] || c.take 3 == ["ip", "link", "show"] ||
  c.take 2 == ["sudo", "cat"]

/-- Whether an effect mutates interface state, the process population, or
the filesystem. -/
def mutatesSystem : Effect → Bool
  | .run c => !readOnlyRun c
  | _ => true

/-- Commands issued by one call of `is_hotspot_active`: always the pgrep
probe; the `ip addr show` probe only when pgrep completed with exit 0. -/
def probeEffects (iface : String) (p : ActiveProbe) : List Effect :=
  Effect.run pgrepHostapdCmd ::
    (match p.pgrepHostapd with
     | .error _ => []
     | .ok r => if r.returncode == 0 then [Effect.run (ipAddrShowCmd iface)] else [])

/-! ## Error messages raised by hotspot.py -/

def sudoRequiredMsg : String :=
  "Hotspot functionality requires sudo privileges. Please run the web interface as root or with appropriate permissions."
def sudoRequiredStartupMsg : String :=
  "Hotspot startup requires sudo privileges. Please run with sudo or as root."
def ifaceNotFoundMsg (iface : String) : String :=
  "Wireless interface " ++ iface ++ " not found"
def addIpFailedMsg (stderrText : String) : String :=
  "Failed to add IP address: " ++ stderrText
def linkUpFailedMsg (stderrText : String) : String :=
  "Failed to bring interface up: " ++ stderrText
def verifyIpFailedMsg (ip : String) : String :=
  "Interface configuration verification failed for IP " ++ ip
def permissionDeniedMsg : String :=
  "Permission denied. Hotspot requires sudo privileges to configure network interfaces."
def hostapdNotFoundMsg : String := "hostapd process not found after startup command"
def dnsmasqNotFoundMsg : String := "dnsmasq process not found after startup command"
def startVerifyFailedMsg : String := "Hotspot failed to start properly - verification failed"
def startFailedMsg (cause : String) : String := "Failed to start hotspot: " ++ cause

/-- Message `str(subprocess.CalledProcessError)` for a failed checked run. -/
def calledProcessMsg (cmd : List String) (code : Int) : String :=
  "Command " ++ toString cmd ++ " returned non-zero exit status " ++ toString code ++ "."

/-! ## Interface configuration -/

/-- Completed results of the five commands `_configure_interface_ip` can
issue (all run without `check=True`, so they complete with an exit code
rather than raising). -/
structure IfaceEnv where
  linkShow : RunResult
  flush : RunResult
  addrAdd : RunResult
  linkSetUp : RunResult
  addrShowVerify : RunResult
deriving Repr

/-- Embedding of `HotspotManager._configure_interface_ip` (hotspot.py lines 179–242).
Returns the outcome (raised `HotspotError` message or success) and the
trace of issued effects.  The `except subprocess.CalledProcessError`
handler of the source, which maps permission-indicating errors to
`permissionDeniedMsg`, has no effect here: none of the five commands is
run with `check=True`, so no `CalledProcessError` can reach it. -/
def configure_interface_ip (cfg : HotspotConfig) (sudoOk : Bool) (e : IfaceEnv)
    (iface : String) : Outcome Unit × List Effect :=
  let t0 := [Effect.run sudoCheckCmd]
  if !sudoOk then (.error sudoRequiredStartupMsg, t0)
  else
    let t1 := t0 ++ [Effect.run (ipLinkShowCmd iface)]
    if e.linkShow.returncode != 0 then (.error (ifaceNotFoundMsg iface), t1)
    else
      let ip := cfg.ip_address.getD "192.168.4.1"
      let t2 := t1 ++ [Effect.run (sudoPre sudoOk ++ ipFlushCmd iface),
                       Effect.run (sudoPre sudoOk ++ ipAddrAddCmd ip iface)]
      if e.addrAdd.returncode != 0 then (.error (addIpFailedMsg e.addrAdd.stderr), t2)
      else
        let t3 := t2 ++ [Effect.run (sudoPre sudoOk ++ ipLinkSetUpCmd iface)]
        if e.linkSetUp.returncode != 0 then (.error (linkUpFailedMsg e.linkSetUp.stderr), t3)
        else
          let t4 := t3 ++ [Effect.run (ipAddrShowCmd iface)]
          if strContains e.addrShowVerify.stdout ip then (.ok (), t4)
          else (.error (verifyIpFailedMsg ip), t4)

/-! ## Config rendering -/

/-- The hostapd configuration document built by `_create_hostapd_config`
(hotspot.py lines 258–273): a single interpolated template, written here as
the same text split at the interpolation points. -/
def hostapdConfigContent (iface : String) (cfg : HotspotConfig) : String :=
  "# PiBridge Hotspot Configuration\n" ++
  "interface=" ++ iface ++ "\n" ++
  "driver=nl80211\n" ++
  "ssid=" ++ cfg.ssid.getD "pibridge" ++ "\n" ++
  "hw_mode=g\n" ++
  "channel=" ++ toString (cfg.channel.getD 6) ++ "\n" ++
  "macaddr_acl=0\n" ++
  "auth_algs=1\n" ++
  "ignore_broadcast_ssid=0\n" ++
  "wpa=2\n" ++
  "wpa_passphrase=" ++ cfg.password.getD "pibridge123" ++ "\n" ++
  "wpa_key_mgmt=WPA-PSK\n" ++
  "wpa_pairwise=TKIP\n" ++
  "rsn_pairwise=CCMP\n" ++
  "country_code=" ++ cfg.country_code.getD "US" ++ "\n"

/-- The dnsmasq configuration document built by `_create_dnsmasq_config`
(hotspot.py lines 289–297). -/
def dnsmasqConfigContent (iface : String) (cfg : HotspotConfig) : String :=
  "# PiBridge DHCP Configuration\n" ++
  "interface=" ++ iface ++ "\n" ++
  "dhcp-range=" ++ cfg.dhcp_start.getD "192.168.4.10" ++ "," ++
    cfg.dhcp_end.getD "192.168.4.50" ++ ",255.255.255.0,12h\n" ++
  "dhcp-option=3," ++ cfg.ip_address.getD "192.168.4.1" ++ "\n" ++
  "dhcp-option=6," ++ cfg.ip_address.getD "192.168.4.1" ++ "\n" ++
  "server=8.8.8.8\n" ++
  "log-queries\n" ++
  "log-dhcp\n"

/-! ## File state and config-file creation -/

/-- Existence of the three ephemeral files the manager touches. -/
structure SysFiles where
  hostapdConf : Bool
  dnsmasqConf : Bool
  hostapdLog : Bool
deriving Repr, DecidableEq

def noFiles : SysFiles := ⟨false, false, false⟩

/-- Embedding of `_create_hostapd_config`: renders the document and writes it; a raised
write error is re-raised wrapped as a `HotspotError`. -/
def create_hostapd_config (cfg : HotspotConfig) (iface : String)
    (w : Outcome Unit) (fs : SysFiles) : Outcome Unit × List Effect × SysFiles :=
  match w with
  | .error m => (.error ("Failed to create hostapd config: " ++ m), [], fs)
  | .ok _ =>
    (.ok (), [Effect.write hostapdConfPath (hostapdConfigContent iface cfg)],
     { fs with hostapdConf := true })

/-- Embedding of `_create_dnsmasq_config`: same shape for the DHCP daemon document. -/
def create_dnsmasq_config (cfg : HotspotConfig) (iface : String)
    (w : Outcome Unit) (fs : SysFiles) : Outcome Unit × List Effect × SysFiles :=
  match w with
  | .error m => (.error ("Failed to create dnsmasq config: " ++ m), [], fs)
  | .ok _ =>
    (.ok (), [Effect.write dnsmasqConfPath (dnsmasqConfigContent iface cfg)],
     { fs with dnsmasqConf := true })

/-! ## Daemon launch -/

/-- Outcomes for one `_start_<daemon>` call: the checked launch command and
the post-launch pgrep probe. -/
structure DaemonEnv where
  launch : RunResult
  pgrepCheck : RunResult
deriving Repr

/-- Embedding of `_start_hostapd` (hotspot.py lines 308–336): launch with `check=True`
(a non-zero exit raises `CalledProcessError`, re-wrapped as a
`HotspotError`), then confirm by name-pattern pgrep. -/
def start_hostapd (sudoOk : Bool) (e : DaemonEnv) : Outcome Unit × List Effect :=
  let t0 := [Effect.run sudoCheckCmd, Effect.run (sudoPre sudoOk ++ hostapdLaunchCmd)]
  if e.launch.returncode != 0 then
    (.error ("Failed to start hostapd: " ++
       calledProcessMsg (sudoPre sudoOk ++ hostapdLaunchCmd) e.launch.returncode), t0)
  else
    let t1 := t0 ++ [Effect.run pgrepHostapdCmd]
    if e.pgrepCheck.returncode != 0 then (.error hostapdNotFoundMsg, t1)
    else (.ok (), t1)

/-- Embedding of `_start_dnsmasq` (hotspot.py lines 338–366). -/
def start_dnsmasq (sudoOk : Bool) (e : DaemonEnv) : Outcome Unit × List Effect :=
  let t0 := [Effect.run sudoCheckCmd, Effect.run (sudoPre sudoOk ++ dnsmasqLaunchCmd)]
  if e.launch.returncode != 0 then
    (.error ("Failed to start dnsmasq: " ++
       calledProcessMsg (sudoPre sudoOk ++ dnsmasqLaunchCmd) e.launch.returncode), t0)
  else
    let t1 := t0 ++ [Effect.run pgrepDnsmasqCmd]
    if e.pgrepCheck.returncode != 0 then (.error dnsmasqNotFoundMsg, t1)
    else (.ok (), t1)

/-! ## Manager state and stop -/

/-- The two process-handle fields of `HotspotManager` (`hostapd_process`
and `dnsmasq_process`), holding a pid when a live `Popen` handle would be
held. -/
structure ManagerState where
  hostapd_process : Option Nat
  dnsmasq_process : Option Nat
deriving Repr, DecidableEq

/-- The state `__init__` establishes (hotspot.py lines 25–26). -/
def initState : ManagerState := ⟨none, none⟩

/-- Whether each handle's bounded `wait(timeout=5)` would time out,
forcing the escalation to `kill()`. -/
structure StopEnv where
  hostapdWaitTimesOut : Bool
  dnsmasqWaitTimesOut : Bool
deriving Repr, DecidableEq

/-- Embedding of `_cleanup_config_files` (hotspot.py lines 368–381): remove each of the
three ephemeral files that exists. -/
def cleanup_config_files (fs : SysFiles) : List Effect × SysFiles :=
  ((if fs.hostapdConf then [Effect.removeFile hostapdConfPath] else []) ++
   (if fs.dnsmasqConf then [Effect.removeFile dnsmasqConfPath] else []) ++
   (if fs.hostapdLog then [Effect.removeFile hostapdLogPath] else []),
   noFiles)

/-- Per-handle teardown inside `stop_hotspot`: graceful terminate, bounded
wait, force kill on timeout. -/
def handleStopTrace (pid : Option Nat) (timesOut : Bool) : List Effect :=
  match pid with
  | none => []
  | some p => Effect.terminate p :: (if timesOut then [Effect.kill p] else [])

/-- Result of one `stop_hotspot` call. -/
structure StopResult where
  ok : Bool
  trace : List Effect
  state : ManagerState
  files : SysFiles
deriving Repr

/-- Embedding of `HotspotManager.stop_hotspot` (hotspot.py lines 129–164): per-handle
terminate/wait/kill, unconditional `pkill -f` sweep for both daemon names,
then ephemeral-file cleanup; all failures are swallowed. -/
def stop_hotspot (st : ManagerState) (se : StopEnv) (fs : SysFiles) : StopResult :=
  let t1 := handleStopTrace st.hostapd_process se.hostapdWaitTimesOut
  let t2 := handleStopTrace st.dnsmasq_process se.dnsmasqWaitTimesOut
  let c := cleanup_config_files fs
  ⟨true,
   t1 ++ t2 ++ [Effect.run pkillHostapdCmd, Effect.run pkillDnsmasqCmd] ++ c.1,
   initState, c.2⟩

/-! ## The start pipeline -/

/-- Everything the environment decides during one `start_hotspot` call. -/
structure StartEnv where
  preProbe : ActiveProbe
  sudoOk : Bool
  ifaceCmds : IfaceEnv
  hostapdWrite : Outcome Unit
  dnsmasqWrite : Outcome Unit
  hostapd : DaemonEnv
  dnsmasq : DaemonEnv
  postProbe : ActiveProbe
deriving Repr

/-- Result of the `try` body of `start_hotspot` (before the `except`
clause): outcome, trace, and ephemeral-file state. -/
structure BodyResult where
  result : Outcome Bool
  trace : List Effect
  files : SysFiles
deriving Repr

/-- The `try` body of `HotspotManager.start_hotspot` (hotspot.py lines
73–121): already-active fast path, sudo check, best-effort WiFi
disconnect, interface configuration, the two config writes, the two
daemon launches, and the settle-and-verify step. -/
def startBody (cfg : HotspotConfig) (env : StartEnv) (fs : SysFiles) : BodyResult :=
  let tPre := probeEffects hotspotIface env.preProbe
  if is_hotspot_active cfg env.preProbe then ⟨.ok true, tPre, fs⟩
  else
    let t1 := tPre ++ [Effect.run sudoCheckCmd]
    if !env.sudoOk then ⟨.error sudoRequiredMsg, t1, fs⟩
    else
      let t2 := t1 ++ [Effect.run sudoCheckCmd,
                       Effect.run (sudoPre env.sudoOk ++ nmcliDisconnectCmd hotspotIface)]
      match configure_interface_ip cfg env.sudoOk env.ifaceCmds hotspotIface with
      | (.error m, tc) => ⟨.error m, t2 ++ tc, fs⟩
      | (.ok _, tc) =>
        let t3 := t2 ++ tc
        match create_hostapd_config cfg hotspotIface env.hostapdWrite fs with
        | (.error m, tw, fs1) => ⟨.error m, t3 ++ tw, fs1⟩
        | (.ok _, tw, fs1) =>
          let t4 := t3 ++ tw
          match create_dnsmasq_config cfg hotspotIface env.dnsmasqWrite fs1 with
          | (.error m, tw2, fs2) => ⟨.error m, t4 ++ tw2, fs2⟩
          | (.ok _, tw2, fs2) =>
            let t5 := t4 ++ tw2
            match start_hostapd env.sudoOk env.hostapd with
            | (.error m, th) => ⟨.error m, t5 ++ th, fs2⟩
            | (.ok _, th) =>
              let t6 := t5 ++ th
              match start_dnsmasq env.sudoOk env.dnsmasq with
              | (.error m, td) => ⟨.error m, t6 ++ td, fs2⟩
              | (.ok _, td) =>
                let t7 := t6 ++ td ++ probeEffects hotspotIface env.postProbe
                if is_hotspot_active cfg env.postProbe then ⟨.ok true, t7, fs2⟩
                else ⟨.error startVerifyFailedMsg, t7, fs2⟩

/-- Result of one `start_hotspot` call. -/
structure StartResult where
  result : Outcome Bool
  trace : List Effect
  state : ManagerState
  files : SysFiles
deriving Repr

/-- Embedding of `HotspotManager.start_hotspot` (hotspot.py lines 71–127): the body,
with its `except` clause running `stop_hotspot` (whose own failures are
swallowed) and re-raising the cause wrapped in a single `HotspotError`. -/
def start_hotspot (cfg : HotspotConfig) (env : StartEnv) (se : StopEnv)
    (st : ManagerState) (fs : SysFiles) : StartResult :=
  match startBody cfg env fs with
  | ⟨.ok b, tr, fs1⟩ => ⟨.ok b, tr, st, fs1⟩
  | ⟨.error c, tr, fs1⟩ =>
    let s := stop_hotspot st se fs1
    ⟨.error (startFailedMsg c), tr ++ s.trace, s.state, s.files⟩

/-! ## Status reporting -/

/-- Outcomes of the probes `get_hotspot_info` can issue: the activity
probes and the `arp -an` client count (run with `check=True`, wrapped in a
bare `except` that degrades to a zero count). -/
structure InfoEnv where
  probe : ActiveProbe
  arp : Outcome RunResult
deriving Repr

/-- The dictionary returned by `get_hotspot_info`.  `none` in
`clients_count`/`channel` means the key is absent (inactive dictionary);
`none` in `ssid`/`ip_address` means the config key was missing and
`dict.get` returned Python `None`. -/
structure HotspotInfo where
  active : Bool
  ssid : Option String
  iface_name : String
  ip_address : Option String
  channel : Option Int
  clients_count : Option Nat
  errorMsg : Option String
deriving Repr, DecidableEq

/-- Client count from `arp -an`: lines of stdout containing the configured
IP (default `192.168.4.` here), zero when the checked command failed or
raised. -/
def countArpClients (cfg : HotspotConfig) (r : Outcome RunResult) : Nat :=
  match r with
  | .error _ => 0
  | .ok res =>
    if res.returncode == 0 then
      ((splitLines res.stdout).filter
        (fun l => strContains l (cfg.ip_address.getD "192.168.4."))).length
    else 0

/-- Embedding of `HotspotManager.get_hotspot_info` (hotspot.py lines 383–413). -/
def get_hotspot_info (cfg : HotspotConfig) (iface : String) (e : InfoEnv) : HotspotInfo :=
  if is_hotspot_active cfg e.probe then
    ⟨true, cfg.ssid, iface, cfg.ip_address, cfg.channel,
     some (countArpClients cfg e.arp), none⟩
  else
    ⟨false, cfg.ssid, iface, cfg.ip_address, none, none, none⟩

/-- The `HotspotStatus` record built by `get_status`.  `ssid`/`ip_address`
stay optional because `info.get(key, default)` only substitutes the
default when the key is absent, and the info dictionary always carries
these keys (possibly holding Python `None`). -/
structure StatusRecord where
  active : Bool
  ssid : Option String
  iface_name : String
  ip_address : Option String
  clients : Nat
deriving Repr, DecidableEq

/-- Embedding of `HotspotManager.get_status` (hotspot.py lines 415–424). -/
def get_status (cfg : HotspotConfig) (iface : String) (e : InfoEnv) : StatusRecord :=
  let i := get_hotspot_info cfg iface e
  ⟨i.active, i.ssid, i.iface_name, i.ip_address, i.clients_count.getD 0⟩

/-! ## Connected clients -/

/-- One parsed lease record. -/
structure ClientRec where
  mac : String
  ip : String
  hostname : String
  connected_since : String
deriving Repr, DecidableEq

/-- Two-digit zero-padded rendering. -/
def pad2 (n : Nat) : String := if n < 10 then "0" ++ toString n else toString n

/-- Gregorian civil date from days since 1970-01-01. -/
def civilFromDays (z0 : Nat) : Nat × Nat × Nat :=
  let z := z0 + 719468
  let era := z / 146097
  let doe := z % 146097
  let yoe := (doe - doe / 1460 + doe / 36524 - doe / 146096) / 365
  let y := yoe + era * 400
  let doy := doe - (365 * yoe + yoe / 4 - yoe / 100)
  let mp := (5 * doy + 2) / 153
  let d := doy - (153 * mp + 2) / 5 + 1
  let m := if mp < 10 then mp + 3 else mp - 9
  (if m ≤ 2 then y + 1 else y, m, d)

/-- Embedding of `_format_timestamp` (hotspot.py lines 473–479):
`datetime.fromtimestamp(ts).strftime('%Y-%m-%d %H:%M:%S')` for
non-negative timestamps, rendered here in UTC. -/
def formatTimestamp (ts : Nat) : String :=
  let days := ts / 86400
  let rem := ts % 86400
  let ymd := civilFromDays days
  toString ymd.1 ++ "-" ++ pad2 ymd.2.1 ++ "-" ++ pad2 ymd.2.2 ++ " " ++
    pad2 (rem / 3600) ++ ":" ++ pad2 (rem % 3600 / 60) ++ ":" ++ pad2 (rem % 60)

/-- One line of the lease store: whitespace-split; skipped unless at least
3 fields; hostname defaults to "unknown"; timestamp formatted only when
digit-only. -/
def parseLeaseLine (line : String) : Option ClientRec :=
  match pySplitWs line with
  | ts :: mac :: ip :: rest =>
    some ⟨mac, ip, (rest.head?).getD "unknown",
          if pyIsDigit ts then formatTimestamp (pyStrToNat ts) else "unknown"⟩
  | _ => none

/-- All records of one lease-store document:
`[line for line in stdout.split('\n') if line]`, each parsed, malformed
lines skipped. -/
def parseLeases (content : String) : List ClientRec :=
  ((splitLines content).filter (fun l => l ≠ "")).filterMap parseLeaseLine

/-- Outcomes of the `sudo cat` reads of the candidate lease files, in the
fixed priority order of hotspot.py lines 434–438. -/
structure ClientsEnv where
  reads : List (Outcome RunResult)
deriving Repr

/-- The first candidate read that completed with exit code 0; raised reads
and non-zero exits fall through to the next candidate. -/
def firstGoodRead : List (Outcome RunResult) → Option String
  | [] => none
  | .error _ :: rest => firstGoodRead rest
  | .ok r :: rest => if r.returncode == 0 then some r.stdout else firstGoodRead rest

/-- Embedding of `HotspotManager.get_connected_clients` (hotspot.py lines 426–471). -/
def get_connected_clients (ce : ClientsEnv) : List ClientRec :=
  match firstGoodRead ce.reads with
  | none => []
  | some content => parseLeases content

/-! ## Operation-level state machine -/

/-- One public operation on a `HotspotManager` instance, together with the
environment it observes. -/
inductive Op where
  | startOp (env : StartEnv) (se : StopEnv)
  | stopOp (se : StopEnv)
  | statusOp (ie : InfoEnv)
  | clientsOp (ce : ClientsEnv)

/-- Effect of one operation on the manager's handle fields and the
ephemeral files. -/
def stepState (cfg : HotspotConfig) (p : ManagerState × SysFiles) :
    Op → ManagerState × SysFiles
  | .startOp env se =>
    let r := start_hotspot cfg env se p.1 p.2
    (r.state, r.files)
  | .stopOp se =>
    let r := stop_hotspot p.1 se p.2
    (r.state, r.files)
  | .statusOp _ => p
  | .clientsOp _ => p

/-- States reachable from a fresh `HotspotManager` (arbitrary leftover
files) by any sequence of public operations. -/
def runOps (cfg : HotspotConfig) (fs0 : SysFiles) (ops : List Op) :
    ManagerState × SysFiles :=
  ops.foldl (stepState cfg) (initState, fs0)

/-! ## Concrete inputs used in closed theorems -/

/-- The documented default configuration, all keys present. -/
def cfgDefault : HotspotConfig :=
  ⟨some "pibridge", some "pibridge123", some "wlan0", some "192.168.4.1",
   some "192.168.4.10", some "192.168.4.50", some 6, some "US"⟩

/-- The default configuration with a present-but-empty SSID. -/
def cfgEmptySsid : HotspotConfig :=
  ⟨some "", some "pibridge123", some "wlan0", some "192.168.4.1",
   some "192.168.4.10", some "192.168.4.50", some 6, some "US"⟩

/-- A completed run with exit code 0 and empty output. -/
def rcZero : RunResult := ⟨0, "", ""⟩

/-- Probe pair reporting an active hotspot: pgrep finds a pid and the
interface carries the configured address. -/
def probeActivePair : ActiveProbe :=
  ⟨.ok ⟨0, "1234", ""⟩, .ok ⟨0, "inet 192.168.4.1/24 brd 192.168.4.255", ""⟩⟩

/-- Probe pair reporting no AP daemon process. -/
def probeDown : ActiveProbe := ⟨.ok ⟨1, "", ""⟩, .ok ⟨0, "", ""⟩⟩

/-- Probe pair whose pgrep invocation raised. -/
def probeErr : ActiveProbe := ⟨.error "pgrep raised", .ok rcZero⟩

/-- Interface-command outcomes where everything succeeds and verification
sees the configured address. -/
def ifaceEnvOk : IfaceEnv := ⟨rcZero, rcZero, rcZero, rcZero, ⟨0, "inet 192.168.4.1/24", ""⟩⟩

/-- Interface-command outcomes where `ip addr add` fails with a
permission-indicating stderr. -/
def ifaceEnvPermDenied : IfaceEnv :=
  ⟨rcZero, rcZero, ⟨2, "", "RTNETLINK answers: Operation not permitted"⟩, rcZero, rcZero⟩

/-- Start environment in which the pre-check already reports active. -/
def envActive : StartEnv :=
  ⟨probeActivePair, true, ifaceEnvOk, .ok (), .ok (),
   ⟨rcZero, rcZero⟩, ⟨rcZero, rcZero⟩, probeActivePair⟩

/-- Start environment in which the hotspot is down and sudo is not
usable, so the privilege check fails. -/
def envNoSudo : StartEnv :=
  ⟨probeDown, false, ifaceEnvOk, .ok (), .ok (),
   ⟨rcZero, rcZero⟩, ⟨rcZero, rcZero⟩, probeDown⟩

/-- Stop environment where both bounded waits complete in time. -/
def seQuick : StopEnv := ⟨false, false⟩

/-- Stop environment where both bounded waits time out. -/
def seTimeout : StopEnv := ⟨true, true⟩

/-- Manager state holding both daemon handles. -/
def stHandles : ManagerState := ⟨some 41, some 42⟩

/-- File state with all three ephemeral files present. -/
def fsAll : SysFiles := ⟨true, true, true⟩

/-- Status environment: activity probes report active, `arp -an` raises. -/
def infoEnvArpFail : InfoEnv := ⟨probeActivePair, .error "arp failed"⟩

/-- Status environment whose pgrep probe raised. -/
def infoEnvProbeErr : InfoEnv := ⟨probeErr, .ok rcZero⟩

/-- Lease reads: first candidate readable, holding one well-formed line
and one 2-field line. -/
def clientsEnvA : ClientsEnv :=
  ⟨[.ok ⟨0, "1700000000 aa:bb:cc:dd:ee:ff 192.168.4.23 my-phone\n1700000001 bb:cc\n", ""⟩,
    .error "missing", .error "missing"]⟩

/-- Lease reads: first candidate raises, second readable with a 3-field
line (no hostname). -/
def clientsEnvB : ClientsEnv :=
  ⟨[.error "No such file or directory",
    .ok ⟨0, "1700000000 aa:bb:cc:dd:ee:ff 192.168.4.23\n", ""⟩, .error "missing"]⟩

/-! ## Helper lemmas -/

/-- Characterization of the activity probe: active exactly when pgrep
found the daemon and the interface probe completed showing the configured
address. -/
theorem is_active_char (cfg : HotspotConfig) (p : ActiveProbe) :
    is_hotspot_active cfg p = true ↔ probeFindsDaemon p ∧ probeShowsIp cfg p := by
  unfold is_hotspot_active probeFindsDaemon probeShowsIp
  cases hp : p.pgrepHostapd with
  | error m => simp
  | ok r1 =>
    by_cases h1 : r1.returncode = 0
    · simp only [h1, if_pos rfl, beq_self_eq_true, if_true]
      cases hs : p.ipAddrShow with
      | error m => simp
      | ok r2 =>
        by_cases h2 : r2.returncode = 0
        · cases hip : cfg.ip_address with
          | none => simp [h1, h2, hip]
          | some ip => simp [h1, h2, hip]
        · simp [h1, h2]
    · simp [h1]

/-- When the probe reports active, both probe commands were issued. -/
theorem probeEffects_of_active (cfg : HotspotConfig) (p : ActiveProbe) (iface : String)
    (h : is_hotspot_active cfg p = true) :
    probeEffects iface p = [Effect.run pgrepHostapdCmd, Effect.run (ipAddrShowCmd iface)] := by
  obtain ⟨⟨r, hr, hrc⟩, _⟩ := (is_active_char cfg p).mp h
  simp [probeEffects, hr, hrc]

/-- Unfolding of `start_hotspot` in terms of the body's result. -/
theorem start_hotspot_eq (cfg : HotspotConfig) (env : StartEnv) (se : StopEnv)
    (st : ManagerState) (fs : SysFiles) :
    start_hotspot cfg env se st fs =
      match (startBody cfg env fs).result with
      | .ok b => ⟨.ok b, (startBody cfg env fs).trace, st, (startBody cfg env fs).files⟩
      | .error c =>
        ⟨.error (startFailedMsg c),
         (startBody cfg env fs).trace ++ (stop_hotspot st se (startBody cfg env fs).files).trace,
         (stop_hotspot st se (startBody cfg env fs).files).state,
         (stop_hotspot st se (startBody cfg env fs).files).files⟩ := by
  unfold start_hotspot
  rcases startBody cfg env fs with ⟨res, tr, fs1⟩
  cases res <;> rfl

/-- Every operation leaves the handle fields at their initial value. -/
theorem step_preserves_init (cfg : HotspotConfig) (p : ManagerState × SysFiles) (op : Op)
    (h : p.1 = initState) : (stepState cfg p op).1 = initState := by
  cases op with
  | startOp env se =>
    simp only [stepState]
    rw [start_hotspot_eq]
    rcases (startBody cfg env p.2).result with c | b
    · rfl
    · exact h
  | stopOp se => rfl
  | statusOp ie => exact h
  | clientsOp ce => exact h

/-- Reachable states all carry the initial (empty) handle fields. -/
theorem runOps_fst (cfg : HotspotConfig) (fs0 : SysFiles) (ops : List Op) :
    (runOps cfg fs0 ops).1 = initState := by
  suffices H : ∀ p : ManagerState × SysFiles, p.1 = initState →
      (ops.foldl (stepState cfg) p).1 = initState by
    exact H (initState, fs0) rfl
  induction ops with
  | nil => intro p h; exact h
  | cons op rest ih => intro p h; exact ih _ (step_preserves_init cfg p op h)

/-- A raised probe forces the activity check to report inactive. -/
theorem not_active_of_probe_error (cfg : HotspotConfig) (p : ActiveProbe)
    (h : (∃ m, p.pgrepHostapd = .error m) ∨ (∃ m, p.ipAddrShow = .error m)) :
    is_hotspot_active cfg p = false := by
  rcases h with ⟨m, hm⟩ | ⟨m, hm⟩
  · simp [is_hotspot_active, hm]
  · unfold is_hotspot_active
    cases hp : p.pgrepHostapd with
    | error m2 => rfl
    | ok r => by_cases h1 : r.returncode = 0 <;> simp [h1, hm]

/-! ## Claim theorems -/

/-- C3: `is_active()` returns true if and only if the AP daemon's process
is found by the name-pattern probe and the configured IP address is
present in the interface probe's reported address output; when either
condition fails, or any probe raises, it returns false. -/
theorem C3_is_active_iff (cfg : HotspotConfig) (p : ActiveProbe) :
    is_hotspot_active cfg p = true ↔ probeFindsDaemon p ∧ probeShowsIp cfg p :=
  is_active_char cfg p

/-- C3 witness: the characterization evaluated at a concrete active probe
pair. -/
theorem C3_witness : probeFindsDaemon probeActivePair ∧ probeShowsIp cfgDefault probeActivePair :=
  (C3_is_active_iff cfgDefault probeActivePair).mp (by decide)

/-- C2: when the live-system activity check already reports active,
`start()` returns success immediately, its trace is exactly the two
read-only probe commands (no interface mutation, no config write, no
daemon launch), and manager state and ephemeral files are unchanged. -/
theorem C2_start_idempotent_when_active (cfg : HotspotConfig) (env : StartEnv) (se : StopEnv)
    (st : ManagerState) (fs : SysFiles)
    (h : is_hotspot_active cfg env.preProbe = true) :
    (start_hotspot cfg env se st fs).result = .ok true ∧
    (start_hotspot cfg env se st fs).trace =
      [Effect.run pgrepHostapdCmd, Effect.run (ipAddrShowCmd hotspotIface)] ∧
    (∀ e ∈ (start_hotspot cfg env se st fs).trace, mutatesSystem e = false) ∧
    (start_hotspot cfg env se st fs).state = st ∧
    (start_hotspot cfg env se st fs).files = fs := by
  have hb : startBody cfg env fs = ⟨.ok true, probeEffects hotspotIface env.preProbe, fs⟩ := by
    simp [startBody, h]
  have hp := probeEffects_of_active cfg env.preProbe hotspotIface h
  have hr : start_hotspot cfg env se st fs =
      ⟨.ok true, probeEffects hotspotIface env.preProbe, st, fs⟩ := by
    rw [start_hotspot_eq, hb]
  rw [hr, hp]
  refine ⟨rfl, rfl, ?_, rfl, rfl⟩
  have hmut : ∀ e ∈ [Effect.run pgrepHostapdCmd, Effect.run (ipAddrShowCmd hotspotIface)],
      mutatesSystem e = false := by decide
  exact hmut

/-- C2 witness: concrete already-active environment. -/
theorem C2_witness :
    is_hotspot_active cfgDefault envActive.preProbe = true ∧
    (start_hotspot cfgDefault envActive seQuick initState noFiles).result = .ok true :=
  ⟨by decide,
   (C2_start_idempotent_when_active cfgDefault envActive seQuick initState noFiles (by decide)).1⟩

/-- C1: whenever the start pipeline body fails with cause `c`, `start()`
runs the full cleanup (`stop()`'s trace is appended, the ephemeral config
files end absent, the handle fields end empty, both name-based kill sweeps
appear in the trace) and then surfaces the single wrapped error carrying
`c`; the wrapped message does not depend on how the cleanup itself went,
so a cleanup failure can never replace the original cause. -/
theorem C1_start_failure_cleanup_then_wrap (cfg : HotspotConfig) (env : StartEnv) (se : StopEnv)
    (st : ManagerState) (fs : SysFiles) (c : String)
    (h : (startBody cfg env fs).result = .error c) :
    (start_hotspot cfg env se st fs).result = .error (startFailedMsg c) ∧
    (start_hotspot cfg env se st fs).trace =
      (startBody cfg env fs).trace ++ (stop_hotspot st se (startBody cfg env fs).files).trace ∧
    (start_hotspot cfg env se st fs).files = noFiles ∧
    (start_hotspot cfg env se st fs).state = initState ∧
    Effect.run pkillHostapdCmd ∈ (start_hotspot cfg env se st fs).trace ∧
    Effect.run pkillDnsmasqCmd ∈ (start_hotspot cfg env se st fs).trace ∧
    ∀ se2 : StopEnv, (start_hotspot cfg env se2 st fs).result = .error (startFailedMsg c) := by
  have hall : ∀ se3 : StopEnv, start_hotspot cfg env se3 st fs =
      ⟨.error (startFailedMsg c),
       (startBody cfg env fs).trace ++ (stop_hotspot st se3 (startBody cfg env fs).files).trace,
       (stop_hotspot st se3 (startBody cfg env fs).files).state,
       (stop_hotspot st se3 (startBody cfg env fs).files).files⟩ := by
    intro se3
    rw [start_hotspot_eq cfg env se3 st fs, h]
  rw [hall se]
  refine ⟨rfl, rfl, rfl, rfl, ?_, ?_, fun se2 => by rw [hall se2]⟩
  · simp [stop_hotspot, List.mem_append]
  · simp [stop_hotspot, List.mem_append]

/-- C1 witness: the privilege-check failure point, injected concretely. -/
theorem C1_witness :
    (startBody cfgDefault envNoSudo noFiles).result = .error sudoRequiredMsg ∧
    (start_hotspot cfgDefault envNoSudo seQuick initState noFiles).result =
      .error (startFailedMsg sudoRequiredMsg) ∧
    (start_hotspot cfgDefault envNoSudo seQuick initState noFiles).files = noFiles :=
  ⟨rfl,
   (C1_start_failure_cleanup_then_wrap cfgDefault envNoSudo seQuick initState noFiles
      sudoRequiredMsg rfl).1,
   (C1_start_failure_cleanup_then_wrap cfgDefault envNoSudo seQuick initState noFiles
      sudoRequiredMsg rfl).2.2.1⟩

/-- C6: `stop()` always reports success (never raises), always issues the
name-based kill sweep for both daemon roles, always ends with no ephemeral
files and empty handle fields; each held handle gets a graceful terminate
and, on wait timeout, a force kill; and a second `stop()` from the
resulting state succeeds with the same end state. -/
theorem C6_stop_never_fails_idempotent (st : ManagerState) (se : StopEnv) (fs : SysFiles) :
    (stop_hotspot st se fs).ok = true ∧
    Effect.run pkillHostapdCmd ∈ (stop_hotspot st se fs).trace ∧
    Effect.run pkillDnsmasqCmd ∈ (stop_hotspot st se fs).trace ∧
    (stop_hotspot st se fs).files = noFiles ∧
    (stop_hotspot st se fs).state = initState ∧
    (∀ p, st.hostapd_process = some p →
      Effect.terminate p ∈ (stop_hotspot st se fs).trace ∧
      (se.hostapdWaitTimesOut = true → Effect.kill p ∈ (stop_hotspot st se fs).trace)) ∧
    (∀ p, st.dnsmasq_process = some p →
      Effect.terminate p ∈ (stop_hotspot st se fs).trace ∧
      (se.dnsmasqWaitTimesOut = true → Effect.kill p ∈ (stop_hotspot st se fs).trace)) ∧
    ∀ se2 : StopEnv, stop_hotspot (stop_hotspot st se fs).state se2 (stop_hotspot st se fs).files =
      ⟨true, [Effect.run pkillHostapdCmd, Effect.run pkillDnsmasqCmd], initState, noFiles⟩ := by
  refine ⟨rfl, ?_, ?_, rfl, rfl, ?_, ?_, ?_⟩
  · simp [stop_hotspot, List.mem_append]
  · simp [stop_hotspot, List.mem_append]
  · intro p hp
    constructor
    · simp [stop_hotspot, handleStopTrace, hp, List.mem_append]
    · intro ht; simp [stop_hotspot, handleStopTrace, hp, ht, List.mem_append]
  · intro p hp
    constructor
    · simp [stop_hotspot, handleStopTrace, hp, List.mem_append]
    · intro ht; simp [stop_hotspot, handleStopTrace, hp, ht, List.mem_append]
  · intro se2
    rfl

/-- C6 witness: a state holding both handles, both waits timing out, all
files present. -/
theorem C6_witness :
    (stop_hotspot stHandles seTimeout fsAll).ok = true ∧
    Effect.terminate 41 ∈ (stop_hotspot stHandles seTimeout fsAll).trace ∧
    Effect.kill 41 ∈ (stop_hotspot stHandles seTimeout fsAll).trace ∧
    (stop_hotspot stHandles seTimeout fsAll).files = noFiles :=
  ⟨(C6_stop_never_fails_idempotent stHandles seTimeout fsAll).1,
   ((C6_stop_never_fails_idempotent stHandles seTimeout fsAll).2.2.2.2.2.1 41 rfl).1,
   ((C6_stop_never_fails_idempotent stHandles seTimeout fsAll).2.2.2.2.2.1 41 rfl).2 rfl,
   (C6_stop_never_fails_idempotent stHandles seTimeout fsAll).2.2.2.1⟩

/-- C10: in every state reachable by public operations from a fresh
manager, both process-handle fields are `none`; consequently a `stop()`
from any reachable state issues no per-handle terminate/kill effects and
its teardown consists exactly of the name-based sweep followed by the
file cleanup. -/
theorem C10_handles_always_none (cfg : HotspotConfig) (fs0 : SysFiles) (ops : List Op) :
    (runOps cfg fs0 ops).1.hostapd_process = none ∧
    (runOps cfg fs0 ops).1.dnsmasq_process = none ∧
    ∀ se : StopEnv, (stop_hotspot (runOps cfg fs0 ops).1 se (runOps cfg fs0 ops).2).trace =
      Effect.run pkillHostapdCmd :: Effect.run pkillDnsmasqCmd ::
        (cleanup_config_files (runOps cfg fs0 ops).2).1 := by
  have h := runOps_fst cfg fs0 ops
  refine ⟨by rw [h]; rfl, by rw [h]; rfl, fun se => ?_⟩
  rw [h]
  rfl

/-- C10 witness: a concrete operation sequence containing a failed start
and a stop. -/
theorem C10_witness :
    (runOps cfgDefault fsAll [Op.startOp envNoSudo seQuick, Op.stopOp seQuick]).1.hostapd_process
      = none :=
  (C10_handles_always_none cfgDefault fsAll [Op.startOp envNoSudo seQuick, Op.stopOp seQuick]).1

/-- C7: `connected_clients()` uses the first candidate lease file that is
successfully read (a raised read falls through to the next candidate); the
well-formed line `1700000000 aa:bb:cc:dd:ee:ff 192.168.4.23 my-phone`
yields exactly one record with that mac, ip and hostname and a formatted
non-"unknown" timestamp; a 3-field line defaults the hostname to
"unknown"; a 2-field line is skipped without error. -/
theorem C7_lease_parsing :
    get_connected_clients clientsEnvA =
      [⟨"aa:bb:cc:dd:ee:ff", "192.168.4.23", "my-phone", formatTimestamp 1700000000⟩] ∧
    formatTimestamp 1700000000 ≠ "unknown" ∧
    get_connected_clients clientsEnvB =
      [⟨"aa:bb:cc:dd:ee:ff", "192.168.4.23", "unknown", formatTimestamp 1700000000⟩] ∧
    parseLeaseLine "1700000001 bb:cc" = none := by
  refine ⟨by decide, by decide, by decide, by decide⟩

/-- C4 counterexample: with usable privilege and an existing interface,
the `ip addr add` command fails with a permission-indicating stderr, yet
the raised error is the generic add-address error, not the dedicated
permission-denied error — the claimed mapping does not happen, because
the handler performing it only catches `CalledProcessError`, which a run
without `check=True` never produces. -/
theorem C4_counterexample :
    (configure_interface_ip cfgDefault true ifaceEnvPermDenied hotspotIface).1 =
      .error (addIpFailedMsg "RTNETLINK answers: Operation not permitted") ∧
    strContains "RTNETLINK answers: Operation not permitted" "Operation not permitted" = true ∧
    addIpFailedMsg "RTNETLINK answers: Operation not permitted" ≠ permissionDeniedMsg :=
  ⟨rfl, by decide, by decide⟩

/-- C4 (amended): interface configuration checks privilege, then performs,
in order: the existence check that fails fast with a typed error; the
best-effort flush whose outcome never changes the result; the address
assignment with `ip_address/24`; the link-up command; and the verifying
re-read that raises a verification error when `ip_address` is absent.
Every non-flush command failure raises a typed error carrying the
command's stderr; no permission-denied mapping is applied to these
failures. -/
theorem C4_amended (cfg : HotspotConfig) (e : IfaceEnv) :
    ((configure_interface_ip cfg false e hotspotIface).1 = .error sudoRequiredStartupMsg) ∧
    (e.linkShow.returncode ≠ 0 →
      (configure_interface_ip cfg true e hotspotIface).1 =
        .error (ifaceNotFoundMsg hotspotIface) ∧
      (configure_interface_ip cfg true e hotspotIface).2 =
        [Effect.run sudoCheckCmd, Effect.run (ipLinkShowCmd hotspotIface)]) ∧
    (∀ r : RunResult,
      (configure_interface_ip cfg true { e with flush := r } hotspotIface).1 =
      (configure_interface_ip cfg true e hotspotIface).1) ∧
    (e.linkShow.returncode = 0 → e.addrAdd.returncode ≠ 0 →
      (configure_interface_ip cfg true e hotspotIface).1 =
        .error (addIpFailedMsg e.addrAdd.stderr) ∧
      (configure_interface_ip cfg true e hotspotIface).2 =
        [Effect.run sudoCheckCmd, Effect.run (ipLinkShowCmd hotspotIface),
         Effect.run (sudoPre true ++ ipFlushCmd hotspotIface),
         Effect.run (sudoPre true ++ ipAddrAddCmd (cfg.ip_address.getD "192.168.4.1") hotspotIface)]) ∧
    (e.linkShow.returncode = 0 → e.addrAdd.returncode = 0 → e.linkSetUp.returncode ≠ 0 →
      (configure_interface_ip cfg true e hotspotIface).1 =
        .error (linkUpFailedMsg e.linkSetUp.stderr)) ∧
    (e.linkShow.returncode = 0 → e.addrAdd.returncode = 0 → e.linkSetUp.returncode = 0 →
      (configure_interface_ip cfg true e hotspotIface).2 =
        [Effect.run sudoCheckCmd, Effect.run (ipLinkShowCmd hotspotIface),
         Effect.run (sudoPre true ++ ipFlushCmd hotspotIface),
         Effect.run (sudoPre true ++ ipAddrAddCmd (cfg.ip_address.getD "192.168.4.1") hotspotIface),
         Effect.run (sudoPre true ++ ipLinkSetUpCmd hotspotIface),
         Effect.run (ipAddrShowCmd hotspotIface)] ∧
      ((configure_interface_ip cfg true e hotspotIface).1 = .ok () ↔
        strContains e.addrShowVerify.stdout (cfg.ip_address.getD "192.168.4.1") = true) ∧
      (strContains e.addrShowVerify.stdout (cfg.ip_address.getD "192.168.4.1") = false →
        (configure_interface_ip cfg true e hotspotIface).1 =
          .error (verifyIpFailedMsg (cfg.ip_address.getD "192.168.4.1")))) := by
  refine ⟨rfl, ?_, fun r => rfl, ?_, ?_, ?_⟩
  · intro h1
    constructor <;> simp [configure_interface_ip, h1]
  · intro h1 h2
    constructor <;> simp [configure_interface_ip, h1, h2]
  · intro h1 h2 h3
    simp [configure_interface_ip, h1, h2, h3]
  · intro h1 h2 h3
    refine ⟨?_, ?_, ?_⟩
    · simp only [configure_interface_ip, h1, h2, h3]
      norm_num
      split <;> rfl
    · by_cases h4 : strContains e.addrShowVerify.stdout (cfg.ip_address.getD "192.168.4.1") = true
      · simp [configure_interface_ip, h1, h2, h3, h4]
      · have h4f : strContains e.addrShowVerify.stdout (cfg.ip_address.getD "192.168.4.1") = false := by
          simpa using h4
        simp [configure_interface_ip, h1, h2, h3, h4f]
    · intro h4
      simp [configure_interface_ip, h1, h2, h3, h4]

/-- C4 witness: the all-success environment drives the amended
characterization to a successful configuration. -/
theorem C4_witness :
    (configure_interface_ip cfgDefault true ifaceEnvOk hotspotIface).1 = .ok () :=
  ((C4_amended cfgDefault ifaceEnvOk).2.2.2.2.2 rfl rfl rfl).2.1.mpr (by decide)

set_option maxRecDepth 40000 in
/-- C5 counterexample: with a present-but-empty SSID the rendered hostapd
document carries a bare `ssid=` line and nowhere the documented default —
the empty SSID is emitted empty, not replaced. -/
theorem C5_counterexample :
    (splitLines (hostapdConfigContent hotspotIface cfgEmptySsid)).contains "ssid=" = true ∧
    strContains (hostapdConfigContent hotspotIface cfgEmptySsid) "ssid=pibridge" = false := by
  refine ⟨by decide, by decide⟩

/-- C5 (amended): rendering the two daemon configuration documents is
total (never fails) and each interpolated field appears in the output as
the configured value when the key is present — even when empty — and as
the documented default only when the key is missing. -/
theorem C5_amended (cfg : HotspotConfig) (iface : String) :
    (∃ a b, hostapdConfigContent iface cfg =
      a ++ "ssid=" ++ cfg.ssid.getD "pibridge" ++ "\n" ++ b) ∧
    (∃ a b, hostapdConfigContent iface cfg =
      a ++ "wpa_passphrase=" ++ cfg.password.getD "pibridge123" ++ "\n" ++ b) ∧
    (∃ a b, hostapdConfigContent iface cfg =
      a ++ "channel=" ++ toString (cfg.channel.getD 6) ++ "\n" ++ b) ∧
    (∃ a b, hostapdConfigContent iface cfg =
      a ++ "country_code=" ++ cfg.country_code.getD "US" ++ "\n" ++ b) ∧
    (∃ a b, dnsmasqConfigContent iface cfg =
      a ++ "dhcp-range=" ++ cfg.dhcp_start.getD "192.168.4.10" ++ "," ++
        cfg.dhcp_end.getD "192.168.4.50" ++ ",255.255.255.0,12h\n" ++ b) ∧
    (∃ a b, dnsmasqConfigContent iface cfg =
      a ++ "dhcp-option=3," ++ cfg.ip_address.getD "192.168.4.1" ++ "\n" ++ b) := by
  refine ⟨⟨"# PiBridge Hotspot Configuration\n" ++ "interface=" ++ iface ++ "\n" ++
      "driver=nl80211\n",
    "hw_mode=g\n" ++ "channel=" ++ toString (cfg.channel.getD 6) ++ "\n" ++
      "macaddr_acl=0\n" ++ "auth_algs=1\n" ++ "ignore_broadcast_ssid=0\n" ++ "wpa=2\n" ++
      "wpa_passphrase=" ++ cfg.password.getD "pibridge123" ++ "\n" ++
      "wpa_key_mgmt=WPA-PSK\n" ++ "wpa_pairwise=TKIP\n" ++ "rsn_pairwise=CCMP\n" ++
      "country_code=" ++ cfg.country_code.getD "US" ++ "\n",
    by simp only [hostapdConfigContent, String.append_assoc]⟩,
    ⟨"# PiBridge Hotspot Configuration\n" ++ "interface=" ++ iface ++ "\n" ++
      "driver=nl80211\n" ++ "ssid=" ++ cfg.ssid.getD "pibridge" ++ "\n" ++
      "hw_mode=g\n" ++ "channel=" ++ toString (cfg.channel.getD 6) ++ "\n" ++
      "macaddr_acl=0\n" ++ "auth_algs=1\n" ++ "ignore_broadcast_ssid=0\n" ++ "wpa=2\n",
    "wpa_key_mgmt=WPA-PSK\n" ++ "wpa_pairwise=TKIP\n" ++ "rsn_pairwise=CCMP\n" ++
      "country_code=" ++ cfg.country_code.getD "US" ++ "\n",
    by simp only [hostapdConfigContent, String.append_assoc]⟩,
    ⟨"# PiBridge Hotspot Configuration\n" ++ "interface=" ++ iface ++ "\n" ++
      "driver=nl80211\n" ++ "ssid=" ++ cfg.ssid.getD "pibridge" ++ "\n" ++ "hw_mode=g\n",
    "macaddr_acl=0\n" ++ "auth_algs=1\n" ++ "ignore_broadcast_ssid=0\n" ++ "wpa=2\n" ++
      "wpa_passphrase=" ++ cfg.password.getD "pibridge123" ++ "\n" ++
      "wpa_key_mgmt=WPA-PSK\n" ++ "wpa_pairwise=TKIP\n" ++ "rsn_pairwise=CCMP\n" ++
      "country_code=" ++ cfg.country_code.getD "US" ++ "\n",
    by simp only [hostapdConfigContent, String.append_assoc]⟩,
    ⟨"# PiBridge Hotspot Configuration\n" ++ "interface=" ++ iface ++ "\n" ++
      "driver=nl80211\n" ++ "ssid=" ++ cfg.ssid.getD "pibridge" ++ "\n" ++
      "hw_mode=g\n" ++ "channel=" ++ toString (cfg.channel.getD 6) ++ "\n" ++
      "macaddr_acl=0\n" ++ "auth_algs=1\n" ++ "ignore_broadcast_ssid=0\n" ++ "wpa=2\n" ++
      "wpa_passphrase=" ++ cfg.password.getD "pibridge123" ++ "\n" ++
      "wpa_key_mgmt=WPA-PSK\n" ++ "wpa_pairwise=TKIP\n" ++ "rsn_pairwise=CCMP\n",
    "",
    by simp only [hostapdConfigContent, String.append_assoc, String.append_empty]⟩,
    ⟨"# PiBridge DHCP Configuration\n" ++ "interface=" ++ iface ++ "\n",
    "dhcp-option=3," ++ cfg.ip_address.getD "192.168.4.1" ++ "\n" ++
      "dhcp-option=6," ++ cfg.ip_address.getD "192.168.4.1" ++ "\n" ++
      "server=8.8.8.8\n" ++ "log-queries\n" ++ "log-dhcp\n",
    by simp only [dnsmasqConfigContent, String.append_assoc]⟩,
    ⟨"# PiBridge DHCP Configuration\n" ++ "interface=" ++ iface ++ "\n" ++
      "dhcp-range=" ++ cfg.dhcp_start.getD "192.168.4.10" ++ "," ++
      cfg.dhcp_end.getD "192.168.4.50" ++ ",255.255.255.0,12h\n",
    "dhcp-option=6," ++ cfg.ip_address.getD "192.168.4.1" ++ "\n" ++
      "server=8.8.8.8\n" ++ "log-queries\n" ++ "log-dhcp\n",
    by simp only [dnsmasqConfigContent, String.append_assoc]⟩⟩

/-- C8 counterexample: the activity probes report active and the `arp`
probe raises; the returned status is active-looking (not inactive) and no
diagnostic is attached — the probe error was only logged. -/
theorem C8_counterexample :
    infoEnvArpFail.arp = .error "arp failed" ∧
    (get_hotspot_info cfgDefault hotspotIface infoEnvArpFail).active = true ∧
    (get_hotspot_info cfgDefault hotspotIface infoEnvArpFail).errorMsg = none :=
  ⟨rfl, by decide, rfl⟩

/-- C8 (amended): `status()` is a pure read that changes no manager state,
and every probe outcome yields a status object; a raised activity probe
degrades to an inactive-looking status with the diagnostic only logged,
never attached; a raised client-count probe degrades only the client
count to zero. -/
theorem C8_amended (cfg : HotspotConfig) (iface : String) (e : InfoEnv) :
    ((∃ m, e.probe.pgrepHostapd = .error m) ∨ (∃ m, e.probe.ipAddrShow = .error m) →
      (get_status cfg iface e).active = false ∧
      (get_hotspot_info cfg iface e).errorMsg = none) ∧
    (∀ m, e.arp = .error m → (get_status cfg iface e).clients = 0) ∧
    (∀ p : ManagerState × SysFiles, stepState cfg p (Op.statusOp e) = p) ∧
    (∀ (ce : ClientsEnv) (p : ManagerState × SysFiles), stepState cfg p (Op.clientsOp ce) = p) := by
  refine ⟨?_, ?_, fun p => rfl, fun ce p => rfl⟩
  · intro h
    have hf := not_active_of_probe_error cfg e.probe h
    constructor <;> simp [get_status, get_hotspot_info, hf]
  · intro m hm
    by_cases ha : is_hotspot_active cfg e.probe = true
    · simp [get_status, get_hotspot_info, ha, countArpClients, hm]
    · simp at ha
      simp [get_status, get_hotspot_info, ha]

/-- C8 witness: a raised pgrep probe degrades to inactive. -/
theorem C8_witness :
    (get_status cfgDefault hotspotIface infoEnvProbeErr).active = false :=
  ((C8_amended cfgDefault hotspotIface infoEnvProbeErr).1 (Or.inl ⟨"pgrep raised", rfl⟩)).1

/-- C5 witness: the amended rendering characterization at the default
configuration. -/
theorem C5_witness :
    ∃ a b, hostapdConfigContent hotspotIface cfgDefault =
      a ++ "ssid=" ++ cfgDefault.ssid.getD "pibridge" ++ "\n" ++ b :=
  (C5_amended cfgDefault hotspotIface).1

end PiBridge
